import Mathlib

/-!
Verification of the claude-agent-sdk transport, pooling, parsing and error
layers.  The Rust sources under `crates/claude-agent-sdk/src` are shallowly
embedded as executable Lean definitions: pure functions become Lean
functions, the subprocess read loop becomes a fold over the list of lines the
process emits, and the connection pool becomes a state machine with an
explicit step relation.  Machine integers are modelled as `Nat`; fallible
code returns `Except`.
-/

namespace ClaudeSDK

/-! ## Error taxonomy (errors.rs) -/

/-- Embedding of `ErrorCategory` from errors.rs: the closed set of error
categories. -/
inductive ErrorCategory where
  | Network
  | Process
  | Parsing
  | Configuration
  | Validation
  | Permission
  | Resource
  | Internal
  | External
deriving Repr, DecidableEq

/-- Embedding of `ErrorCategory::is_retryable` from errors.rs: network,
external and process errors may be retried. -/
def ErrorCategory.is_retryable : ErrorCategory → Bool
  | ErrorCategory.Network => true
  | ErrorCategory.External => true
  | ErrorCategory.Process => true
  | _ => false

/-- Embedding of `HttpStatus` from errors.rs. -/
inductive HttpStatus where
  | BadRequest
  | Unauthorized
  | Forbidden
  | NotFound
  | RequestTimeout
  | Conflict
  | UnprocessableEntity
  | TooManyRequests
  | InternalServerError
  | BadGateway
  | ServiceUnavailable
  | GatewayTimeout
deriving Repr, DecidableEq

/-- Embedding of `HttpStatus::code` from errors.rs. -/
def HttpStatus.code : HttpStatus → Nat
  | HttpStatus.BadRequest => 400
  | HttpStatus.Unauthorized => 401
  | HttpStatus.Forbidden => 403
  | HttpStatus.NotFound => 404
  | HttpStatus.RequestTimeout => 408
  | HttpStatus.Conflict => 409
  | HttpStatus.UnprocessableEntity => 422
  | HttpStatus.TooManyRequests => 429
  | HttpStatus.InternalServerError => 500
  | HttpStatus.BadGateway => 502
  | HttpStatus.ServiceUnavailable => 503
  | HttpStatus.GatewayTimeout => 504

/-! JSON values.  serde_json's data model, used both by the error payloads
and by the message codec.  Numbers are kept as their source lexeme: none of
the verified code inspects numeric values, both parsing modes share one
number grammar, and this avoids floating point. -/

/-- Embedding of `serde_json::Value`. -/
inductive Json where
  | null
  | bool (b : Bool)
  | num (lexeme : String)
  | str (s : String)
  | arr (elems : List Json)
  | obj (fields : List (String × Json))
deriving Repr, Inhabited

/-- Embedding of `ConnectionError` from errors.rs. -/
structure ConnectionError where
  message : String
deriving Repr

/-- Embedding of `ProcessError` from errors.rs. -/
structure ProcessError where
  message : String
  exit_code : Option Int
  stderr : Option String
deriving Repr

/-- Embedding of `JsonDecodeError` from errors.rs. -/
structure JsonDecodeError where
  message : String
  line : String
deriving Repr

/-- Embedding of `MessageParseError` from errors.rs. -/
structure MessageParseError where
  message : String
  data : Option Json
deriving Repr

/-- Embedding of `CliNotFoundError` from errors.rs. -/
structure CliNotFoundError where
  message : String
  cli_path : Option String
deriving Repr

/-- Embedding of `ImageValidationError` from errors.rs. -/
structure ImageValidationError where
  message : String
deriving Repr

/-- Embedding of the `ClaudeError` enum from errors.rs.  The `Io` and
`Other` payloads (std::io::Error, anyhow::Error) are modelled as their
message strings. -/
inductive ClaudeError where
  | Connection (e : ConnectionError)
  | Process (e : ProcessError)
  | JsonDecode (e : JsonDecodeError)
  | MessageParse (e : MessageParseError)
  | Transport (msg : String)
  | ControlProtocol (msg : String)
  | InvalidConfig (msg : String)
  | CliNotFound (e : CliNotFoundError)
  | ImageValidation (e : ImageValidationError)
  | ioErr (msg : String)
  | Other (msg : String)
  | NotFound (msg : String)
  | InvalidInput (msg : String)
  | InternalError (msg : String)
deriving Repr

/-- Embedding of `ClaudeError::category` from errors.rs. -/
def ClaudeError.category : ClaudeError → ErrorCategory
  | ClaudeError.Connection _ => ErrorCategory.Network
  | ClaudeError.Process _ => ErrorCategory.Process
  | ClaudeError.JsonDecode _ => ErrorCategory.Parsing
  | ClaudeError.MessageParse _ => ErrorCategory.Parsing
  | ClaudeError.Transport _ => ErrorCategory.Network
  | ClaudeError.ControlProtocol _ => ErrorCategory.Internal
  | ClaudeError.InvalidConfig _ => ErrorCategory.Configuration
  | ClaudeError.CliNotFound _ => ErrorCategory.Configuration
  | ClaudeError.ImageValidation _ => ErrorCategory.Validation
  | ClaudeError.ioErr _ => ErrorCategory.Internal
  | ClaudeError.Other _ => ErrorCategory.Internal
  | ClaudeError.NotFound _ => ErrorCategory.Resource
  | ClaudeError.InvalidInput _ => ErrorCategory.Validation
  | ClaudeError.InternalError _ => ErrorCategory.Internal

/-- Embedding of `ClaudeError::error_code` from errors.rs. -/
def ClaudeError.error_code : ClaudeError → String
  | ClaudeError.Connection _ => "ENET001"
  | ClaudeError.Process _ => "EPROC001"
  | ClaudeError.JsonDecode _ => "EPARSE001"
  | ClaudeError.MessageParse _ => "EPARSE002"
  | ClaudeError.Transport _ => "ENET002"
  | ClaudeError.ControlProtocol _ => "EINT001"
  | ClaudeError.InvalidConfig _ => "ECFG001"
  | ClaudeError.CliNotFound _ => "ECFG002"
  | ClaudeError.ImageValidation _ => "EVAL001"
  | ClaudeError.ioErr _ => "EINT002"
  | ClaudeError.Other _ => "EINT003"
  | ClaudeError.NotFound _ => "ERES001"
  | ClaudeError.InvalidInput _ => "EVAL002"
  | ClaudeError.InternalError _ => "EINT004"

/-- Embedding of `ClaudeError::is_retryable` from errors.rs: delegates to the
category. -/
def ClaudeError.is_retryable (e : ClaudeError) : Bool :=
  e.category.is_retryable

/-- Embedding of `ClaudeError::http_status` from errors.rs. -/
def ClaudeError.http_status : ClaudeError → HttpStatus
  | ClaudeError.Connection _ => HttpStatus.ServiceUnavailable
  | ClaudeError.Process _ => HttpStatus.BadGateway
  | ClaudeError.JsonDecode _ => HttpStatus.UnprocessableEntity
  | ClaudeError.MessageParse _ => HttpStatus.UnprocessableEntity
  | ClaudeError.Transport _ => HttpStatus.ServiceUnavailable
  | ClaudeError.ControlProtocol _ => HttpStatus.InternalServerError
  | ClaudeError.InvalidConfig _ => HttpStatus.InternalServerError
  | ClaudeError.CliNotFound _ => HttpStatus.InternalServerError
  | ClaudeError.ImageValidation _ => HttpStatus.BadRequest
  | ClaudeError.ioErr _ => HttpStatus.InternalServerError
  | ClaudeError.Other _ => HttpStatus.InternalServerError
  | ClaudeError.NotFound _ => HttpStatus.NotFound
  | ClaudeError.InvalidInput _ => HttpStatus.BadRequest
  | ClaudeError.InternalError _ => HttpStatus.InternalServerError

/-- Constructor index of a `ClaudeError`, identifying which of the fourteen
variants a value belongs to (used to state that code, category and status
are functions of the variant alone). -/
def ClaudeError.ctorIdx : ClaudeError → Nat
  | ClaudeError.Connection _ => 0
  | ClaudeError.Process _ => 1
  | ClaudeError.JsonDecode _ => 2
  | ClaudeError.MessageParse _ => 3
  | ClaudeError.Transport _ => 4
  | ClaudeError.ControlProtocol _ => 5
  | ClaudeError.InvalidConfig _ => 6
  | ClaudeError.CliNotFound _ => 7
  | ClaudeError.ImageValidation _ => 8
  | ClaudeError.ioErr _ => 9
  | ClaudeError.Other _ => 10
  | ClaudeError.NotFound _ => 11
  | ClaudeError.InvalidInput _ => 12
  | ClaudeError.InternalError _ => 13

/-! ## JSON text parsing (serde_json string grammar)

Both decoding modes of message_parser.rs delegate the textual JSON grammar
to serde_json (`from_str`).  The grammar is embedded once as a fuel-indexed
recursive-descent parser over the character list; fuel `length + 1` always
suffices since every recursive step consumes at least one character. -/

/-- Whitespace accepted between JSON tokens. -/
def jsonWs (c : Char) : Bool :=
  c = ' ' || c = '\t' || c = '\n' || c = '\r'

/-- Drops leading JSON whitespace. -/
def skipWs : List Char → List Char
  | [] => []
  | c :: rest => if jsonWs c then skipWs rest else c :: rest

/-- Value of a hexadecimal digit, if any. -/
def hexVal (c : Char) : Option Nat :=
  if '0' ≤ c ∧ c ≤ '9' then some (c.toNat - '0'.toNat)
  else if 'a' ≤ c ∧ c ≤ 'f' then some (c.toNat - 'a'.toNat + 10)
  else if 'A' ≤ c ∧ c ≤ 'F' then some (c.toNat - 'A'.toNat + 10)
  else none

/-- Parses the body of a JSON string literal (after the opening quote),
handling the escape sequences of the JSON grammar. -/
def parseStrBody (cs : List Char) (acc : List Char) :
    Except String (String × List Char) :=
  match cs with
  | [] => Except.error "unterminated string"
  | '"' :: rest => Except.ok (String.mk acc.reverse, rest)
  | '\\' :: rest =>
    match rest with
    | [] => Except.error "truncated escape"
    | e :: rest2 =>
      if e = '"' then parseStrBody rest2 ('"' :: acc)
      else if e = '\\' then parseStrBody rest2 ('\\' :: acc)
      else if e = '/' then parseStrBody rest2 ('/' :: acc)
      else if e = 'b' then parseStrBody rest2 ('\x08' :: acc)
      else if e = 'f' then parseStrBody rest2 ('\x0C' :: acc)
      else if e = 'n' then parseStrBody rest2 ('\n' :: acc)
      else if e = 'r' then parseStrBody rest2 ('\r' :: acc)
      else if e = 't' then parseStrBody rest2 ('\t' :: acc)
      else if e = 'u' then
        match rest2 with
        | h1 :: h2 :: h3 :: h4 :: rest3 =>
          match hexVal h1, hexVal h2, hexVal h3, hexVal h4 with
          | some a, some b, some c, some d =>
            parseStrBody rest3 (Char.ofNat (((a * 16 + b) * 16 + c) * 16 + d) :: acc)
          | _, _, _, _ => Except.error "invalid unicode escape"
        | _ => Except.error "invalid unicode escape"
      else Except.error "unknown escape"
  | c :: rest => parseStrBody rest (c :: acc)

/-- Characters that may occur in a JSON number lexeme. -/
def numChar (c : Char) : Bool :=
  c.isDigit || c = '-' || c = '+' || c = '.' || c = 'e' || c = 'E'

/-- Parses a JSON number, keeping its lexeme. -/
def parseNum (cs : List Char) : Except String (String × List Char) :=
  let lex := cs.takeWhile numChar
  if lex.any Char.isDigit then
    Except.ok (String.mk lex, cs.dropWhile numChar)
  else Except.error "invalid number"

mutual

/-- Parses one JSON value and returns the remaining input. -/
def parseVal : Nat → List Char → Except String (Json × List Char)
  | 0, _ => Except.error "recursion limit exceeded"
  | Nat.succ fuel, cs =>
    match skipWs cs with
    | 'n' :: 'u' :: 'l' :: 'l' :: rest => Except.ok (Json.null, rest)
    | 't' :: 'r' :: 'u' :: 'e' :: rest => Except.ok (Json.bool true, rest)
    | 'f' :: 'a' :: 'l' :: 's' :: 'e' :: rest => Except.ok (Json.bool false, rest)
    | '"' :: rest => do
      let (s, r) ← parseStrBody rest []
      Except.ok (Json.str s, r)
    | '[' :: rest =>
      (match skipWs rest with
       | ']' :: r2 => Except.ok (Json.arr [], r2)
       | other => do
         let (xs, r2) ← parseElems fuel other
         Except.ok (Json.arr xs, r2))
    | '{' :: rest =>
      (match skipWs rest with
       | '}' :: r2 => Except.ok (Json.obj [], r2)
       | other => do
         let (fs, r2) ← parseFields fuel other
         Except.ok (Json.obj fs, r2))
    | c :: rest =>
      if c.isDigit || c = '-' then do
        let (lex, r) ← parseNum (c :: rest)
        Except.ok (Json.num lex, r)
      else Except.error "unexpected character"
    | [] => Except.error "unexpected end of input"

/-- Parses the elements of a non-empty JSON array up to the closing
bracket. -/
def parseElems : Nat → List Char → Except String (List Json × List Char)
  | 0, _ => Except.error "recursion limit exceeded"
  | Nat.succ fuel, cs => do
    let (v, r1) ← parseVal fuel cs
    match skipWs r1 with
    | ',' :: r2 => do
      let (xs, r3) ← parseElems fuel r2
      Except.ok (v :: xs, r3)
    | ']' :: r2 => Except.ok ([v], r2)
    | _ => Except.error "expected comma or closing bracket"

/-- Parses the members of a non-empty JSON object up to the closing
brace. -/
def parseFields : Nat → List Char →
    Except String (List (String × Json) × List Char)
  | 0, _ => Except.error "recursion limit exceeded"
  | Nat.succ fuel, cs =>
    match skipWs cs with
    | '"' :: rest => do
      let (k, r1) ← parseStrBody rest []
      match skipWs r1 with
      | ':' :: r2 => do
        let (v, r3) ← parseVal fuel r2
        (match skipWs r3 with
         | ',' :: r4 => do
           let (fs, r5) ← parseFields fuel r4
           Except.ok ((k, v) :: fs, r5)
         | '}' :: r4 => Except.ok ([(k, v)], r4)
         | _ => Except.error "expected comma or closing brace")
      | _ => Except.error "expected colon"
    | _ => Except.error "expected object key"

end

/-- Embedding of `serde_json::from_str::<Value>`: parses a complete JSON
document, rejecting trailing non-whitespace. -/
def jsonFromStr (s : String) : Except String Json :=
  match parseVal (s.length + 1) s.data with
  | Except.ok (v, rest) =>
    if (skipWs rest).isEmpty then Except.ok v
    else Except.error "trailing characters"
  | Except.error e => Except.error e

/-! ## Message codec (message_parser.rs) -/

/-- Looks up the first binding of a key in a JSON object's field list. -/
def lookupField (fields : List (String × Json)) (key : String) : Option Json :=
  match fields with
  | [] => none
  | (k, v) :: rest => if k = key then some v else lookupField rest key

/-- Modelled from the spec: the `Message` enum of types/messages.rs is not
under src.  Per the spec's data model it is "a closed set of variants
(assistant reply, system event, final result, partial stream event, user
echo, control message, unrecognized)", discriminated by the wire `type`
field; the semantic meaning of payload fields beyond framing is out of
scope, so each variant keeps its payload generically. -/
inductive Message where
  | assistant (message : Json)
  | system (subtype : String) (data : Json)
  | result (subtype : String) (data : Json)
  | streamEvent (event : Json) (data : Json)
  | user (data : Json)
  | control (data : Json)
  | unrecognized (raw : Json)
deriving Repr

/-- Modelled from the spec: deserialization of a JSON value into a
`Message` (the serde derive of types/messages.rs, not under src).  The
`type` field selects the variant; a missing or unrecognized discriminant
yields the unrecognized variant; a known discriminant whose required
framing fields are absent is a schema mismatch. -/
def messageOfJson (v : Json) : Except String Message :=
  match v with
  | Json.obj fields =>
    match lookupField fields "type" with
    | some (Json.str t) =>
      if t = "assistant" then
        match lookupField fields "message" with
        | some m => Except.ok (Message.assistant m)
        | none => Except.error "missing field message"
      else if t = "system" then
        match lookupField fields "subtype" with
        | some (Json.str st) => Except.ok (Message.system st v)
        | _ => Except.error "missing field subtype"
      else if t = "result" then
        match lookupField fields "subtype" with
        | some (Json.str st) => Except.ok (Message.result st v)
        | _ => Except.error "missing field subtype"
      else if t = "stream_event" then
        match lookupField fields "event" with
        | some ev => Except.ok (Message.streamEvent ev v)
        | none => Except.error "missing field event"
      else if t = "user" then Except.ok (Message.user v)
      else if t = "control" then Except.ok (Message.control v)
      else Except.ok (Message.unrecognized v)
    | _ => Except.ok (Message.unrecognized v)
  | _ => Except.error "message must be an object"

/-- Embedding of `MessageParser::parse` from message_parser.rs: deserializes
a JSON value into a `Message`, wrapping failures as `MessageParse` errors
carrying the value. -/
def MessageParser.parse (data : Json) : Except ClaudeError Message :=
  (messageOfJson data).mapError fun e =>
    ClaudeError.MessageParse ⟨"Failed to parse message: " ++ e, some data⟩

/-- Embedding of `ZeroCopyMessageParser::parse` from message_parser.rs:
deserializes directly from the string (`serde_json::from_str::<Message>`,
i.e. the JSON grammar composed with the Message schema), wrapping failures
as `MessageParse` errors carrying the input string. -/
def ZeroCopyMessageParser.parse (json : String) : Except ClaudeError Message :=
  match jsonFromStr json with
  | Except.error e =>
    Except.error (ClaudeError.MessageParse
      ⟨"Failed to parse message: " ++ e, some (Json.str json)⟩)
  | Except.ok v =>
    (messageOfJson v).mapError fun e =>
      ClaudeError.MessageParse ⟨"Failed to parse message: " ++ e, some (Json.str json)⟩

/-- Embedding of `ParsingMode` from message_parser.rs. -/
inductive ParsingMode where
  | Traditional
  | ZeroCopy
deriving Repr, DecidableEq

/-- Embedding of `parse_with_mode` from message_parser.rs: Traditional mode
first parses to a value (`from_str::<Value>`) and then applies
`MessageParser::parse`; ZeroCopy mode applies `ZeroCopyMessageParser::parse`
directly. -/
def parse_with_mode (json : String) (mode : ParsingMode) : Except ClaudeError Message :=
  match mode with
  | ParsingMode.Traditional =>
    match jsonFromStr json with
    | Except.error e =>
      Except.error (ClaudeError.MessageParse ⟨"Failed to parse JSON: " ++ e, none⟩)
    | Except.ok value => MessageParser.parse value
  | ParsingMode.ZeroCopy => ZeroCopyMessageParser.parse json

/-- Embedding of `MessageKind` from message_parser.rs. -/
inductive MessageKind where
  | Assistant
  | System
  | Result
  | StreamEvent
  | User
  | Control
  | Unknown
deriving Repr, DecidableEq

/-- Discriminant of a decoded message, as `MessageKind` reports it. -/
def Message.kind : Message → MessageKind
  | Message.assistant _ => MessageKind.Assistant
  | Message.system _ _ => MessageKind.System
  | Message.result _ _ => MessageKind.Result
  | Message.streamEvent _ _ => MessageKind.StreamEvent
  | Message.user _ => MessageKind.User
  | Message.control _ => MessageKind.Control
  | Message.unrecognized _ => MessageKind.Unknown

/-- Embedding of Rust `str::trim` (for the ASCII whitespace that can occur
in a JSON line): drops leading and trailing whitespace. -/
def strTrim (s : String) : String :=
  String.mk (((s.data.dropWhile jsonWs).reverse.dropWhile jsonWs).reverse)

/-- Tests whether `pat` occurs at the head of `s`. -/
def startsWithChars : List Char → List Char → Bool
  | [], _ => true
  | _ :: _, [] => false
  | p :: ps, c :: cs => p == c && startsWithChars ps cs

/-- Tests whether `pat` occurs anywhere in `s` (embedding of Rust
`str::contains` for literal patterns). -/
def containsSubChars (pat : List Char) : List Char → Bool
  | [] => startsWithChars pat []
  | c :: rest => startsWithChars pat (c :: rest) || containsSubChars pat rest

/-- String wrapper for the substring test. -/
def strContains (s pat : String) : Bool :=
  containsSubChars pat.data s.data

/-- Wire spelling of a kind's discriminant value. -/
def MessageKind.tagText : MessageKind → String
  | MessageKind.Assistant => "assistant"
  | MessageKind.System => "system"
  | MessageKind.Result => "result"
  | MessageKind.StreamEvent => "stream_event"
  | MessageKind.User => "user"
  | MessageKind.Control => "control"
  | MessageKind.Unknown => ""

/-- The substring test `MessageKind::detect` performs for one kind: the
discriminant field in the two spellings `"type":"k"` and `"type": "k"`. -/
def hasKindPattern (k : MessageKind) (s : String) : Bool :=
  match k with
  | MessageKind.Unknown => false
  | _ =>
    strContains s ("\"type\":\"" ++ k.tagText ++ "\"") ||
      strContains s ("\"type\": \"" ++ k.tagText ++ "\"")

/-- Embedding of `MessageKind::detect` from message_parser.rs: a cheap
substring scan for the discriminant field over the trimmed line, checking
the six known kinds in the source's fixed order. -/
def MessageKind.detect (json : String) : MessageKind :=
  let trimmed := strTrim json
  if hasKindPattern MessageKind.Assistant trimmed then MessageKind.Assistant
  else if hasKindPattern MessageKind.System trimmed then MessageKind.System
  else if hasKindPattern MessageKind.Result trimmed then MessageKind.Result
  else if hasKindPattern MessageKind.StreamEvent trimmed then MessageKind.StreamEvent
  else if hasKindPattern MessageKind.User trimmed then MessageKind.User
  else if hasKindPattern MessageKind.Control trimmed then MessageKind.Control
  else MessageKind.Unknown

/-- The six recognized kinds, in the order `detect` checks them. -/
def detectOrder : List MessageKind :=
  [MessageKind.Assistant, MessageKind.System, MessageKind.Result,
    MessageKind.StreamEvent, MessageKind.User, MessageKind.Control]

/-- Tests that no kind other than `k` has its discriminant pattern in
`s`. -/
def othersAbsent (k : MessageKind) (s : String) : Bool :=
  detectOrder.all fun other => other == k || !(hasKindPattern other s)

/-! ## Process transport (transport/subprocess.rs) -/

/-- Decimal digit as a character. -/
def digitChar (d : Nat) : Char := Char.ofNat (48 + d % 10)

/-- Decimal digits of a number, most significant first (fuel-indexed so it
reduces in the kernel). -/
def natDigits : Nat → Nat → List Char
  | 0, _ => []
  | Nat.succ fuel, n =>
    if n < 10 then [digitChar n]
    else natDigits fuel (n / 10) ++ [digitChar (n % 10)]

/-- Embedding of Rust integer formatting, `format!("\x7b\x7d", n)`. -/
def natToStr (n : Nat) : String := String.mk (natDigits (n + 1) n)

/-- Modelled from the spec: `DynamicBufferConfig` (types/config.rs is not
under src).  Initial capacity, multiplicative growth factor (an f64 in the
source, modelled on `Nat`), hard per-message size ceiling, and a
metrics-enabled flag. -/
structure DynamicBufferConfig where
  initial_size : Nat
  growth_factor : Nat
  max_message_size : Nat
  enable_metrics : Bool
deriving Repr, DecidableEq

/-- Modelled from the spec: the default buffer configuration — capacity
starts small (64 KiB per the spec) and grows toward a hard ceiling; the
spec does not fix the default ceiling, 1 MiB is used here. -/
def DynamicBufferConfig.default : DynamicBufferConfig :=
  { initial_size := 65536
    growth_factor := 2
    max_message_size := 1048576
    enable_metrics := true }

/-- Embedding of `AtomicBufferMetrics` from transport/subprocess.rs as a
plain record: peak size, message count, total bytes and resize count. -/
structure BufferMetrics where
  peak_size : Nat
  message_count : Nat
  total_bytes : Nat
  resize_count : Nat
deriving Repr, DecidableEq

/-- Embedding of `AtomicBufferMetrics::new`: all counters start at zero. -/
def BufferMetrics.new : BufferMetrics := ⟨0, 0, 0, 0⟩

/-- Metrics update performed by the read loops for one accepted line:
`update_peak`, `inc_message_count`, `add_bytes`, and `inc_resize_count`
when the line exceeded the current capacity. -/
def BufferMetrics.recordLine (m : BufferMetrics) (bytesRead cap : Nat) : BufferMetrics :=
  { peak_size := max m.peak_size bytesRead
    message_count := m.message_count + 1
    total_bytes := m.total_bytes + bytesRead
    resize_count := if bytesRead > cap then m.resize_count + 1 else m.resize_count }

/-- Capacity growth performed by the read loops: when a line exceeded the
current capacity, multiply by the growth factor, clamped to the ceiling. -/
def nextCapacity (cfg : DynamicBufferConfig) (cap bytesRead : Nat) : Nat :=
  if bytesRead > cap then min (cap * cfg.growth_factor) cfg.max_message_size
  else cap

/-- Error yielded for an oversized line (`ClaudeError::Transport` with the
formatted size message). -/
def sizeExceededError (bytesRead maxSize : Nat) : ClaudeError :=
  ClaudeError.Transport
    ("Message size " ++ natToStr bytesRead ++ " bytes exceeded maximum of " ++
      natToStr maxSize ++ " bytes")

namespace SubprocessTransport

/-- Embedding of `SubprocessTransport::read_messages` from
transport/subprocess.rs.  The subprocess's stdout is modelled as the list
of lines `read_line` delivers (each including its newline; byte counts are
character counts, inputs being treated as ASCII); the end of the list is
EOF.  Returns the stream items together with the final buffer metrics,
threading the current capacity exactly as the source loop does: oversized
lines yield a transport error and stop the loop before any metrics update;
accepted lines update metrics (when enabled); blank lines are skipped;
lines that fail JSON decoding yield a `JsonDecode` error and the loop
continues. -/
def read_messages (cfg : DynamicBufferConfig) :
    Nat → BufferMetrics → List String → List (Except ClaudeError Json) × BufferMetrics
  | _, m, [] => ([], m)
  | cap, m, line :: rest =>
    let bytesRead := line.length
    if bytesRead > cfg.max_message_size then
      ([Except.error (sizeExceededError bytesRead cfg.max_message_size)], m)
    else
      let m' := if cfg.enable_metrics then m.recordLine bytesRead cap else m
      let cap' := if cfg.enable_metrics then nextCapacity cfg cap bytesRead else cap
      let trimmed := strTrim line
      if trimmed.data.isEmpty then read_messages cfg cap' m' rest
      else
        match jsonFromStr trimmed with
        | Except.ok json =>
          let (items, mf) := read_messages cfg cap' m' rest
          (Except.ok json :: items, mf)
        | Except.error e =>
          let (items, mf) := read_messages cfg cap' m' rest
          (Except.error (ClaudeError.JsonDecode
            ⟨"Failed to parse JSON: " ++ e, trimmed⟩) :: items, mf)

/-- Embedding of `SubprocessTransport::read_raw_messages` from
transport/subprocess.rs: identical loop, but yields the trimmed raw line
instead of decoding it. -/
def read_raw_messages (cfg : DynamicBufferConfig) :
    Nat → BufferMetrics → List String → List (Except ClaudeError String) × BufferMetrics
  | _, m, [] => ([], m)
  | cap, m, line :: rest =>
    let bytesRead := line.length
    if bytesRead > cfg.max_message_size then
      ([Except.error (sizeExceededError bytesRead cfg.max_message_size)], m)
    else
      let m' := if cfg.enable_metrics then m.recordLine bytesRead cap else m
      let cap' := if cfg.enable_metrics then nextCapacity cfg cap bytesRead else cap
      let trimmed := strTrim line
      if trimmed.data.isEmpty then read_raw_messages cfg cap' m' rest
      else
        let (items, mf) := read_raw_messages cfg cap' m' rest
        (Except.ok trimmed :: items, mf)

end SubprocessTransport

/-- Filesystem oracle: the `Path::exists` / `Path::is_dir` queries the
transport constructor performs on the configured working directory. -/
structure FileSystem where
  pathExists : String → Bool
  pathIsDir : String → Bool

/-- Modelled from the spec: the fields of `ClaudeAgentOptions`
(types/config.rs is not under src) that the transport core consumes —
working directory, explicit CLI path, and the buffer configuration with
its backward-compatible `max_buffer_size` override. -/
structure ClaudeAgentOptions where
  cwd : Option String
  cli_path : Option String
  buffer_config : Option DynamicBufferConfig
  max_buffer_size : Option Nat

/-- Embedding of `QueryPrompt` from transport/subprocess.rs.  Structured
content blocks are kept as their JSON rendering. -/
inductive QueryPrompt where
  | Text (text : String)
  | Content (blocks : Json)
  | Streaming

/-- Transport state, embedding the fields of `SubprocessTransport` that the
verified claims observe: resolved CLI path and working directory, the
resolved buffer configuration, whether a child process has been spawned,
and the readiness flag. -/
structure SubprocessTransportState where
  cli_path : String
  cwd : Option String
  prompt : QueryPrompt
  buffer_config : DynamicBufferConfig
  spawned : Bool
  ready : Bool

namespace SubprocessTransport

/-- Buffer-configuration resolution from `SubprocessTransport::new`:
explicit config wins, else `max_buffer_size` overrides the default
ceiling, else the default. -/
def resolveBufferConfig (options : ClaudeAgentOptions) : DynamicBufferConfig :=
  match options.buffer_config with
  | some config => config
  | none =>
    match options.max_buffer_size with
    | some maxSize => { DynamicBufferConfig.default with max_message_size := maxSize }
    | none => DynamicBufferConfig.default

/-- Embedding of `SubprocessTransport::new` from transport/subprocess.rs:
validates the working directory first (configuration error if it does not
exist or is not a directory), then resolves the CLI path (explicit path, or
the lookup/auto-install result given by the `findCli` oracle), then the
buffer configuration.  No process is spawned here. -/
def new (fs : FileSystem) (findCli : Option String) (prompt : QueryPrompt)
    (options : ClaudeAgentOptions) : Except ClaudeError SubprocessTransportState :=
  match options.cwd with
  | some c =>
    if !(fs.pathExists c) then
      Except.error (ClaudeError.InvalidConfig
        ("Working directory does not exist: " ++ c ++
          ". Please ensure the directory exists before connecting."))
    else if !(fs.pathIsDir c) then
      Except.error (ClaudeError.InvalidConfig
        ("Working directory path is not a directory: " ++ c))
    else
      match options.cli_path with
      | some p => Except.ok
          { cli_path := p, cwd := options.cwd, prompt
            buffer_config := resolveBufferConfig options
            spawned := false, ready := false }
      | none =>
        match findCli with
        | some p => Except.ok
            { cli_path := p, cwd := options.cwd, prompt
              buffer_config := resolveBufferConfig options
              spawned := false, ready := false }
        | none => Except.error (ClaudeError.CliNotFound
            ⟨"Claude Code CLI not found", none⟩)
  | none =>
    match options.cli_path with
    | some p => Except.ok
        { cli_path := p, cwd := none, prompt
          buffer_config := resolveBufferConfig options
          spawned := false, ready := false }
    | none =>
      match findCli with
      | some p => Except.ok
          { cli_path := p, cwd := none, prompt
            buffer_config := resolveBufferConfig options
            spawned := false, ready := false }
      | none => Except.error (ClaudeError.CliNotFound
          ⟨"Claude Code CLI not found", none⟩)

/-- Embedding of `Transport::connect` for `SubprocessTransport`: runs the
version probe (its failure is a connection error), then spawns the child
process (failure is a process error), marks the transport ready, and sends
the initial prompt.  `versionProbeOk` and `spawnOk` are oracles for the two
OS interactions. -/
def connect (versionProbeOk spawnOk : Bool) (t : SubprocessTransportState) :
    Except ClaudeError SubprocessTransportState :=
  if !versionProbeOk then
    Except.error (ClaudeError.Connection ⟨"Failed to get Claude version"⟩)
  else if !spawnOk then
    Except.error (ClaudeError.Process ⟨"Failed to spawn Claude CLI process", none, none⟩)
  else
    Except.ok { t with spawned := true, ready := true }

/-- Number of child processes a transport value holds (zero or one). -/
def spawnCount (t : SubprocessTransportState) : Nat :=
  if t.spawned then 1 else 0

/-- Build-and-connect pipeline a caller runs to obtain a live transport:
`new` followed by `connect`.  The second component counts child processes
spawned along the way. -/
def buildAndConnect (fs : FileSystem) (findCli : Option String)
    (versionProbeOk spawnOk : Bool) (prompt : QueryPrompt)
    (options : ClaudeAgentOptions) :
    Except ClaudeError SubprocessTransportState × Nat :=
  match new fs findCli prompt options with
  | Except.error e => (Except.error e, 0)
  | Except.ok t =>
    match connect versionProbeOk spawnOk t with
    | Except.error e => (Except.error e, 0)
    | Except.ok t' => (Except.ok t', spawnCount t')

end SubprocessTransport

/-! ## Worker pool (pool.rs)

Time is abstract ticks (`now : Nat`); each cooperative step of the pool is
a function on the pool state.  The semaphore appears as its available
permit count, the mpsc return channel as a FIFO list bounded by
`max_size`, and the number of simultaneously outstanding `WorkerGuard`s is
tracked explicitly (`checked_out` — every guard holds exactly one permit,
so this mirrors the permits the semaphore has handed out).  Blocking
acquisition is time-abstracted: an `acquire` that finds no permit and sees
none released within its 30-second timeout is the step in which the
timeout fires. -/

/-- Embedding of `PoolConfig` from pool.rs.  Durations are abstract
ticks. -/
structure PoolConfig where
  min_size : Nat
  max_size : Nat
  idle_timeout : Nat
  health_check_interval : Nat
  enabled : Bool
deriving Repr, DecidableEq

/-- Embedding of `PooledWorker` from pool.rs: tracking id, last-activity
timestamp and health flag; `alive` models `process.id().is_some()`. -/
structure PooledWorker where
  id : Nat
  last_activity : Nat
  healthy : Bool
  alive : Bool
deriving Repr, DecidableEq

/-- Embedding of `PooledWorker::is_healthy` from pool.rs. -/
def PooledWorker.is_healthy (w : PooledWorker) : Bool :=
  w.healthy && w.alive

/-- Embedding of `PooledWorker::is_idle_timeout` from pool.rs: strictly
more time than `timeout_dur` has passed since the last activity. -/
def PooledWorker.is_idle_timeout (w : PooledWorker) (now timeout_dur : Nat) : Bool :=
  decide (now - w.last_activity > timeout_dur)

/-- Pool state: embedding of `ConnectionPool`'s mutable parts — the
semaphore's available permits, the return channel's queue, the worker-id
counter and the `PoolState` counters — plus the number of outstanding
guards (the permits currently handed out). -/
structure PoolSt where
  available_permits : Nat
  queue : List PooledWorker
  next_worker_id : Nat
  total_created : Nat
  active_count : Nat
  checked_out : Nat
deriving Repr, DecidableEq

/-- Embedding of `PoolStats` from pool.rs. -/
structure PoolStats where
  total_created : Nat
  active_count : Nat
  available_permits : Nat
deriving Repr, DecidableEq

namespace ConnectionPool

/-- Embedding of `ConnectionPool::new` from pool.rs: a full semaphore, an
empty return channel, and zeroed counters. -/
def new (cfg : PoolConfig) : PoolSt :=
  { available_permits := cfg.max_size
    queue := []
    next_worker_id := 0
    total_created := 0
    active_count := 0
    checked_out := 0 }

/-- Embedding of `PooledWorker::spawn_process`/`PooledWorker::new` from
pool.rs: fails with a connection error when no CLI path is configured,
with a process error when the OS spawn fails (`spawnOk` oracle), and
otherwise yields a fresh healthy worker whose last activity is now. -/
def spawnWorker (cliPathPresent spawnOk : Bool) (id now : Nat) :
    Except ClaudeError PooledWorker :=
  if !cliPathPresent then
    Except.error (ClaudeError.Connection
      ⟨"CLI path must be specified for pooled connections"⟩)
  else if !spawnOk then
    Except.error (ClaudeError.Process
      ⟨"Failed to spawn CLI process for pool", none, none⟩)
  else Except.ok { id := id, last_activity := now, healthy := true, alive := true }

/-- Embedding of `ConnectionPool::create_worker` from pool.rs: takes the
next worker id (the id counter advances even if the spawn then fails), and
on success increments `total_created` and `active_count` together. -/
def create_worker (cliPathPresent spawnOk : Bool) (now : Nat) (s : PoolSt) :
    Except ClaudeError PooledWorker × PoolSt :=
  let id := s.next_worker_id + 1
  let s1 := { s with next_worker_id := id }
  match spawnWorker cliPathPresent spawnOk id now with
  | Except.error e => (Except.error e, s1)
  | Except.ok w =>
    (Except.ok w,
      { s1 with total_created := s1.total_created + 1, active_count := s1.active_count + 1 })

/-- Worker creation as `acquire` performs it, while one permit is held: a
successful creation checks the guard out; a failed creation releases the
permit (the permit is dropped with the error return). -/
def createHoldingPermit (cliPathPresent spawnOk : Bool) (now : Nat) (s : PoolSt) :
    Except ClaudeError PooledWorker × PoolSt :=
  match create_worker cliPathPresent spawnOk now s with
  | (Except.ok w, s') => (Except.ok w, { s' with checked_out := s'.checked_out + 1 })
  | (Except.error e, s') =>
    (Except.error e, { s' with available_permits := s'.available_permits + 1 })

/-- Embedding of `ConnectionPool::acquire` from pool.rs: obtain a permit
(timing out with a connection error, leaving the pool untouched, when none
is available within the acquisition timeout), then reuse the worker at the
head of the return channel when it is healthy and within its idle timeout;
a stale or unhealthy worker is removed and dropped (killing its process)
and a fresh worker is created instead, as also happens when the channel is
empty. -/
def acquire (cfg : PoolConfig) (cliPathPresent spawnOk : Bool) (now : Nat)
    (s : PoolSt) : Except ClaudeError PooledWorker × PoolSt :=
  if s.available_permits = 0 then
    (Except.error (ClaudeError.Connection ⟨"Timeout acquiring worker from pool"⟩), s)
  else
    let sPermit := { s with available_permits := s.available_permits - 1 }
    match sPermit.queue with
    | w :: rest =>
      if w.is_healthy && !(w.is_idle_timeout now cfg.idle_timeout) then
        (Except.ok w,
          { sPermit with queue := rest, checked_out := sPermit.checked_out + 1 })
      else
        createHoldingPermit cliPathPresent spawnOk now { sPermit with queue := rest }
    | [] => createHoldingPermit cliPathPresent spawnOk now sPermit

/-- Embedding of `ConnectionPool::initialize` from pool.rs: spawns the
configured minimum number of workers, depositing each in the return
channel (`try_send`, which silently drops the worker when the channel is
full). -/
def initPoolAux (cfg : PoolConfig) (cliPathPresent spawnOk : Bool) (now : Nat) :
    Nat → PoolSt → Except ClaudeError PoolSt
  | 0, s => Except.ok s
  | Nat.succ n, s =>
    match create_worker cliPathPresent spawnOk now s with
    | (Except.error e, _) => Except.error e
    | (Except.ok w, s1) =>
      initPoolAux cfg cliPathPresent spawnOk now n
        (if s1.queue.length < cfg.max_size then { s1 with queue := s1.queue ++ [w] } else s1)

/-- Pool initialization entry point (`min_size` iterations). -/
def initPool (cfg : PoolConfig) (cliPathPresent spawnOk : Bool) (now : Nat)
    (s : PoolSt) : Except ClaudeError PoolSt :=
  initPoolAux cfg cliPathPresent spawnOk now cfg.min_size s

/-- Embedding of `ConnectionPool::stats` from pool.rs. -/
def stats (s : PoolSt) : PoolStats :=
  { total_created := s.total_created
    active_count := s.active_count
    available_permits := s.available_permits }

end ConnectionPool

namespace WorkerGuard

/-- Embedding of `WorkerGuard::drop` from pool.rs: the worker is returned
to the pool with a non-blocking `try_send` (dropped instead when the
channel is full), and the guard's permit is released. -/
def drop (cfg : PoolConfig) (w : PooledWorker) (s : PoolSt) : PoolSt :=
  let s1 := if s.queue.length < cfg.max_size then { s with queue := s.queue ++ [w] } else s
  { s1 with
    available_permits := s1.available_permits + 1
    checked_out := s1.checked_out - 1 }

end WorkerGuard

/-- Reachable pool states: the initial state, and every state produced by
initialization, an `acquire` step (successful or failed), or the drop of
an outstanding guard. -/
inductive Reachable (cfg : PoolConfig) : PoolSt → Prop where
  | init : Reachable cfg (ConnectionPool.new cfg)
  | initPoolStep {s s' : PoolSt} {cp so : Bool} {now : Nat} :
      Reachable cfg s →
      ConnectionPool.initPool cfg cp so now s = Except.ok s' →
      Reachable cfg s'
  | acquireStep {s s' : PoolSt} {cp so : Bool} {now : Nat}
      {r : Except ClaudeError PooledWorker} :
      Reachable cfg s →
      ConnectionPool.acquire cfg cp so now s = (r, s') →
      Reachable cfg s'
  | dropStep {s : PoolSt} {w : PooledWorker} :
      Reachable cfg s →
      0 < s.checked_out →
      Reachable cfg (WorkerGuard.drop cfg w s)

/-! ## Observation helpers used by the theorem statements -/

/-- Tests whether an `Except` is a success. -/
def isOkE {ε α : Type} : Except ε α → Bool
  | Except.ok _ => true
  | Except.error _ => false

/-- Tests whether a stream item is a JSON-decode failure. -/
def isJsonDecodeItem {α : Type} : Except ClaudeError α → Bool
  | Except.error (ClaudeError.JsonDecode _) => true
  | _ => false

/-- Tests whether a stream item is a transport error (the constructor the
size ceiling uses). -/
def isTransportItem {α : Type} : Except ClaudeError α → Bool
  | Except.error (ClaudeError.Transport _) => true
  | _ => false

/-- Category assigned to each `ClaudeError` variant, by constructor
index. -/
def categoryOfIdx : Nat → ErrorCategory
  | 0 => ErrorCategory.Network
  | 1 => ErrorCategory.Process
  | 2 => ErrorCategory.Parsing
  | 3 => ErrorCategory.Parsing
  | 4 => ErrorCategory.Network
  | 5 => ErrorCategory.Internal
  | 6 => ErrorCategory.Configuration
  | 7 => ErrorCategory.Configuration
  | 8 => ErrorCategory.Validation
  | 9 => ErrorCategory.Internal
  | 10 => ErrorCategory.Internal
  | 11 => ErrorCategory.Resource
  | 12 => ErrorCategory.Validation
  | _ => ErrorCategory.Internal

/-- Stable machine-readable code assigned to each `ClaudeError` variant, by
constructor index. -/
def codeOfIdx : Nat → String
  | 0 => "ENET001"
  | 1 => "EPROC001"
  | 2 => "EPARSE001"
  | 3 => "EPARSE002"
  | 4 => "ENET002"
  | 5 => "EINT001"
  | 6 => "ECFG001"
  | 7 => "ECFG002"
  | 8 => "EVAL001"
  | 9 => "EINT002"
  | 10 => "EINT003"
  | 11 => "ERES001"
  | 12 => "EVAL002"
  | _ => "EINT004"

/-- HTTP status assigned to each `ClaudeError` variant, by constructor
index. -/
def statusOfIdx : Nat → HttpStatus
  | 0 => HttpStatus.ServiceUnavailable
  | 1 => HttpStatus.BadGateway
  | 2 => HttpStatus.UnprocessableEntity
  | 3 => HttpStatus.UnprocessableEntity
  | 4 => HttpStatus.ServiceUnavailable
  | 5 => HttpStatus.InternalServerError
  | 6 => HttpStatus.InternalServerError
  | 7 => HttpStatus.InternalServerError
  | 8 => HttpStatus.BadRequest
  | 9 => HttpStatus.InternalServerError
  | 10 => HttpStatus.InternalServerError
  | 11 => HttpStatus.NotFound
  | 12 => HttpStatus.BadRequest
  | _ => HttpStatus.InternalServerError

/-! ## Theorems -/

/-- C9: the error classification is total — every `ClaudeError` maps to
exactly one category of the closed nine-element set, one stable
machine-readable code and one HTTP status, all determined by the variant
alone — and `is_retryable` returns true exactly when the category is
network, process or external. -/
theorem error_classification_total_and_retryable :
    ∀ e : ClaudeError,
      e.category = categoryOfIdx e.ctorIdx ∧
      e.error_code = codeOfIdx e.ctorIdx ∧
      e.http_status = statusOfIdx e.ctorIdx ∧
      (e.is_retryable = true ↔
        (e.category = ErrorCategory.Network ∨ e.category = ErrorCategory.Process ∨
          e.category = ErrorCategory.External)) := by
  intro e
  cases e <;>
    simp [ClaudeError.category, ClaudeError.error_code, ClaudeError.http_status,
      ClaudeError.is_retryable, ClaudeError.ctorIdx, ErrorCategory.is_retryable,
      categoryOfIdx, codeOfIdx, statusOfIdx]

/-- C1: safe mode (`ParsingMode::Traditional`, via an intermediate value)
and direct mode (`ParsingMode::ZeroCopy`) agree on every input line — they
succeed on exactly the same strings, and when both succeed they return the
same `Message`. -/
theorem parse_with_mode_parity :
    ∀ json : String,
      isOkE (parse_with_mode json ParsingMode.Traditional) =
        isOkE (parse_with_mode json ParsingMode.ZeroCopy) ∧
      (parse_with_mode json ParsingMode.Traditional).toOption =
        (parse_with_mode json ParsingMode.ZeroCopy).toOption := by
  intro json
  unfold parse_with_mode ZeroCopyMessageParser.parse MessageParser.parse
  cases h : jsonFromStr json with
  | error e => simp [isOkE, Except.toOption]
  | ok v =>
    cases hm : messageOfJson v with
    | error e => simp [isOkE, Except.mapError, Except.toOption, hm]
    | ok m => simp [isOkE, Except.mapError, Except.toOption, hm]

/-- C2 counterexample: the line `{"type" : "assistant","message":{}}` is
valid JSON (a space before the colon), full decoding succeeds with the
assistant variant, yet `MessageKind::detect` — which only scans for the
spellings `"type":"assistant"` and `"type": "assistant"` — returns
`Unknown`, not the assistant discriminant. -/
theorem detect_disagrees_on_spaced_type_field :
    (parse_with_mode "\x7b\"type\" : \"assistant\",\"message\":\x7b\x7d\x7d"
        ParsingMode.Traditional).toOption.map Message.kind =
      some MessageKind.Assistant ∧
    MessageKind.detect "\x7b\"type\" : \"assistant\",\"message\":\x7b\x7d\x7d" =
      MessageKind.Unknown := by
  exact ⟨by decide, by decide⟩

/-- C2 amended: when full decoding succeeds with a variant of kind `k`, and
the trimmed line contains `k`'s discriminant pattern in one of the two
spellings `detect` scans for while containing no other kind's pattern,
`detect` returns `k`'s discriminant; and for input lacking a recognizable
type field, such as `{"foo":"bar"}`, it returns `Unknown`. -/
theorem detect_agrees_with_decode_when_unambiguous :
    (∀ (json : String) (m : Message) (k : MessageKind),
      parse_with_mode json ParsingMode.Traditional = Except.ok m →
      Message.kind m = k →
      hasKindPattern k (strTrim json) = true →
      othersAbsent k (strTrim json) = true →
      MessageKind.detect json = k) ∧
    MessageKind.detect "\x7b\"foo\":\"bar\"\x7d" = MessageKind.Unknown := by
  constructor
  · intro json m k _ _ hpat habs
    simp only [othersAbsent, detectOrder, List.all_cons, List.all_nil,
      Bool.and_true, Bool.and_eq_true, Bool.or_eq_true, beq_iff_eq,
      Bool.not_eq_true'] at habs
    cases k with
    | Assistant => simp [MessageKind.detect, hpat]
    | System =>
      simp [MessageKind.detect, hpat, habs.1.resolve_left (by decide)]
    | Result =>
      simp [MessageKind.detect, hpat, habs.1.resolve_left (by decide),
        habs.2.1.resolve_left (by decide)]
    | StreamEvent =>
      simp [MessageKind.detect, hpat, habs.1.resolve_left (by decide),
        habs.2.1.resolve_left (by decide), habs.2.2.1.resolve_left (by decide)]
    | User =>
      simp [MessageKind.detect, hpat, habs.1.resolve_left (by decide),
        habs.2.1.resolve_left (by decide), habs.2.2.1.resolve_left (by decide),
        habs.2.2.2.1.resolve_left (by decide)]
    | Control =>
      simp [MessageKind.detect, hpat, habs.1.resolve_left (by decide),
        habs.2.1.resolve_left (by decide), habs.2.2.1.resolve_left (by decide),
        habs.2.2.2.1.resolve_left (by decide),
        habs.2.2.2.2.1.resolve_left (by decide)]
    | Unknown => simp [hasKindPattern] at hpat
  · decide

/-- C2 witness: a compact assistant line on which decoding succeeds, the
assistant pattern is present and unambiguous, and `detect` indeed returns
the assistant discriminant. -/
theorem detect_agrees_with_decode_witness :
    MessageKind.detect "\x7b\"type\":\"assistant\",\"message\":\x7b\x7d\x7d" =
      MessageKind.Assistant :=
  detect_agrees_with_decode_when_unambiguous.1
    "\x7b\"type\":\"assistant\",\"message\":\x7b\x7d\x7d"
    (Message.assistant (Json.obj [])) MessageKind.Assistant rfl rfl
    (by decide) (by decide)

/-- C3 counterexample: a stream whose first line fails JSON decoding and
whose second line is valid produces two items — the decode error and then
the decoded message.  The decode failure therefore does not terminate the
stream. -/
theorem stream_continues_after_decode_error :
    ((SubprocessTransport.read_messages ⟨16, 2, 100, true⟩ 16 BufferMetrics.new
        ["oops\n", "\x7b\x7d\n"]).fst.map fun it => (isJsonDecodeItem it, isOkE it)) =
      [(true, false), (false, true)] := by
  decide

/-- C3 amended: a line that fails JSON decoding yields a `JsonDecode` error
item, after which the stream continues with the items of the remaining
lines (the read loop never touches the subprocess, which is left
running). -/
theorem decode_error_does_not_end_stream :
    ∀ (cfg : DynamicBufferConfig) (cap : Nat) (m : BufferMetrics) (line : String)
      (rest : List String) (e : String),
      ¬ line.length > cfg.max_message_size →
      (strTrim line).data.isEmpty = false →
      jsonFromStr (strTrim line) = Except.error e →
      (SubprocessTransport.read_messages cfg cap m (line :: rest)).fst =
        Except.error (ClaudeError.JsonDecode
          ⟨"Failed to parse JSON: " ++ e, strTrim line⟩) ::
        (SubprocessTransport.read_messages cfg
          (if cfg.enable_metrics then nextCapacity cfg cap line.length else cap)
          (if cfg.enable_metrics then m.recordLine line.length cap else m)
          rest).fst := by
  intro cfg cap m line rest e h1 h2 h3
  simp [SubprocessTransport.read_messages, h1, h2, h3]

/-- C3 witness: the amended statement instantiated on a concrete
two-line stream whose first line is not JSON. -/
theorem decode_error_does_not_end_stream_witness :
    (SubprocessTransport.read_messages ⟨16, 2, 100, true⟩ 16 BufferMetrics.new
        ["oops\n", "\x7b\x7d\n"]).fst =
      Except.error (ClaudeError.JsonDecode
        ⟨"Failed to parse JSON: " ++ "unexpected character", strTrim "oops\n"⟩) ::
      (SubprocessTransport.read_messages ⟨16, 2, 100, true⟩
        (if (true : Bool) then nextCapacity ⟨16, 2, 100, true⟩ 16 "oops\n".length else 16)
        (if (true : Bool) then BufferMetrics.new.recordLine "oops\n".length 16
          else BufferMetrics.new)
        ["\x7b\x7d\n"]).fst :=
  decode_error_does_not_end_stream ⟨16, 2, 100, true⟩ 16 BufferMetrics.new
    "oops\n" ["\x7b\x7d\n"] "unexpected character" (by decide) (by decide) rfl

/-- Helper: a stream all of whose lines are within the ceiling never
yields a size-exceeded transport error, whatever the starting capacity and
metrics — the check is on each line alone, never on the accumulated
bytes. -/
theorem read_messages_no_size_error :
    ∀ (cfg : DynamicBufferConfig) (lines : List String) (cap : Nat) (m : BufferMetrics),
      (∀ l ∈ lines, ¬ l.length > cfg.max_message_size) →
      ∀ it ∈ (SubprocessTransport.read_messages cfg cap m lines).fst,
        isTransportItem it = false := by
  intro cfg lines
  induction lines with
  | nil =>
    intro cap m _ it hit
    simp [SubprocessTransport.read_messages] at hit
  | cons line rest ih =>
    intro cap m hall it hit
    have hline : ¬ line.length > cfg.max_message_size :=
      hall line (List.mem_cons_self line rest)
    have hrest : ∀ l ∈ rest, ¬ l.length > cfg.max_message_size :=
      fun l hl => hall l (List.mem_cons_of_mem line hl)
    simp only [SubprocessTransport.read_messages, if_neg hline] at hit
    by_cases hemp : (strTrim line).data.isEmpty
    · rw [if_pos hemp] at hit
      exact ih _ _ hrest it hit
    · rw [if_neg hemp] at hit
      cases hj : jsonFromStr (strTrim line) with
      | ok json =>
        rw [hj] at hit
        simp at hit
        rcases hit with h | h
        · rw [h]; rfl
        · exact ih _ _ hrest it h
      | error e =>
        rw [hj] at hit
        simp at hit
        rcases hit with h | h
        · rw [h]; rfl
        · exact ih _ _ hrest it h

/-- C4: a line longer than the configured `max_message_size` makes the
read stream (decoded and raw alike) yield exactly one size-exceeded
transport error and terminate, with the buffer metrics left exactly as
they were — no resize, message-count or byte-count update for the
oversized line; and the check is per individual line: a stream whose lines
are each within the ceiling never produces a size error, regardless of
their cumulative size. -/
theorem oversized_line_fails_cleanly :
    (∀ (cfg : DynamicBufferConfig) (cap : Nat) (m : BufferMetrics) (line : String)
      (rest : List String),
      line.length > cfg.max_message_size →
      SubprocessTransport.read_messages cfg cap m (line :: rest) =
        ([Except.error (sizeExceededError line.length cfg.max_message_size)], m) ∧
      SubprocessTransport.read_raw_messages cfg cap m (line :: rest) =
        ([Except.error (sizeExceededError line.length cfg.max_message_size)], m)) ∧
    (∀ (cfg : DynamicBufferConfig) (cap : Nat) (m : BufferMetrics) (lines : List String),
      (∀ l ∈ lines, ¬ l.length > cfg.max_message_size) →
      ∀ it ∈ (SubprocessTransport.read_messages cfg cap m lines).fst,
        isTransportItem it = false) := by
  constructor
  · intro cfg cap m line rest h
    constructor
    · simp [SubprocessTransport.read_messages, h]
    · simp [SubprocessTransport.read_raw_messages, h]
  · intro cfg cap m lines hall
    exact read_messages_no_size_error cfg lines cap m hall

/-- C4 witness: with a ceiling of 3 bytes, a 6-byte line fails with the
size error and untouched metrics, and a stream of three short lines (8
bytes in total, cumulatively over the ceiling) yields no size error. -/
theorem oversized_line_fails_cleanly_witness :
    (SubprocessTransport.read_messages ⟨2, 2, 3, true⟩ 2 BufferMetrics.new
        ["abcde\n"] =
      ([Except.error (sizeExceededError "abcde\n".length 3)], BufferMetrics.new) ∧
      SubprocessTransport.read_raw_messages ⟨2, 2, 3, true⟩ 2 BufferMetrics.new
        ["abcde\n"] =
      ([Except.error (sizeExceededError "abcde\n".length 3)], BufferMetrics.new)) ∧
    (∀ it ∈ (SubprocessTransport.read_messages ⟨2, 2, 3, true⟩ 2 BufferMetrics.new
        ["1\n", "2\n", "3\n"]).fst, isTransportItem it = false) :=
  ⟨oversized_line_fails_cleanly.1 ⟨2, 2, 3, true⟩ 2 BufferMetrics.new "abcde\n" []
      (by decide),
    oversized_line_fails_cleanly.2 ⟨2, 2, 3, true⟩ 2 BufferMetrics.new
      ["1\n", "2\n", "3\n"] (by decide)⟩

/-- C5: when the configured working directory does not exist or is not a
directory, building and connecting a subprocess transport fails with an
`InvalidConfig` configuration error and zero processes are spawned (the
check fires in `new`, before `connect` and before CLI resolution). -/
theorem invalid_cwd_fails_before_spawn :
    ∀ (fs : FileSystem) (findCli : Option String) (versionProbeOk spawnOk : Bool)
      (prompt : QueryPrompt) (options : ClaudeAgentOptions) (c : String),
      options.cwd = some c →
      (fs.pathExists c = false ∨ fs.pathIsDir c = false) →
      ∃ msg, SubprocessTransport.buildAndConnect fs findCli versionProbeOk spawnOk
          prompt options =
        (Except.error (ClaudeError.InvalidConfig msg), 0) := by
  intro fs findCli versionProbeOk spawnOk prompt options c hcwd hbad
  unfold SubprocessTransport.buildAndConnect SubprocessTransport.new
  rw [hcwd]
  rcases hbad with h | h
  · exact ⟨"Working directory does not exist: " ++ c ++
      ". Please ensure the directory exists before connecting.", by simp [h]⟩
  · by_cases hex : fs.pathExists c
    · exact ⟨"Working directory path is not a directory: " ++ c, by simp [hex, h]⟩
    · exact ⟨"Working directory does not exist: " ++ c ++
        ". Please ensure the directory exists before connecting.", by simp [hex]⟩

/-- C5 witness: a filesystem on which nothing exists, and options whose
working directory is set, fail the build-and-connect pipeline with a
configuration error and no spawn. -/
theorem invalid_cwd_fails_before_spawn_witness :
    ∃ msg, SubprocessTransport.buildAndConnect
        ⟨fun _ => false, fun _ => false⟩ (some "/usr/bin/claude") true true
        QueryPrompt.Streaming ⟨some "/nonexistent", none, none, none⟩ =
      (Except.error (ClaudeError.InvalidConfig msg), 0) :=
  invalid_cwd_fails_before_spawn ⟨fun _ => false, fun _ => false⟩
    (some "/usr/bin/claude") true true QueryPrompt.Streaming
    ⟨some "/nonexistent", none, none, none⟩ "/nonexistent" rfl (Or.inl rfl)

/-- Helper: `create_worker` either succeeds, advancing the id counter and
both counters, or fails, advancing only the id counter. -/
theorem create_worker_cases (cp so : Bool) (now : Nat) (s : PoolSt) :
    (∃ w, ConnectionPool.create_worker cp so now s =
      (Except.ok w,
        { s with next_worker_id := s.next_worker_id + 1,
                 total_created := s.total_created + 1,
                 active_count := s.active_count + 1 })) ∨
    (∃ e, ConnectionPool.create_worker cp so now s =
      (Except.error e, { s with next_worker_id := s.next_worker_id + 1 })) := by
  cases cp <;> cases so <;>
    simp [ConnectionPool.create_worker, ConnectionPool.spawnWorker]

/-- Helper: worker creation under a held permit raises the sum of
checked-out guards and available permits by exactly one (success checks
the guard out; failure releases the permit), touches neither the queue nor
the equality of the created/active counters. -/
theorem createHoldingPermit_frame (cp so : Bool) (now : Nat) (t : PoolSt)
    (r : Except ClaudeError PooledWorker) (s' : PoolSt)
    (h : ConnectionPool.createHoldingPermit cp so now t = (r, s')) :
    s'.checked_out + s'.available_permits = t.checked_out + t.available_permits + 1 ∧
    s'.queue = t.queue ∧
    (t.total_created = t.active_count → s'.total_created = s'.active_count) := by
  rcases create_worker_cases cp so now t with ⟨w, hw⟩ | ⟨e, he⟩
  · simp [ConnectionPool.createHoldingPermit, hw] at h
    obtain ⟨-, hs⟩ := h
    subst hs
    refine ⟨?_, ?_, ?_⟩ <;> simp <;> omega
  · simp [ConnectionPool.createHoldingPermit, he] at h
    obtain ⟨-, hs⟩ := h
    subst hs
    refine ⟨?_, ?_, ?_⟩ <;> simp <;> omega

/-- Helper: every `acquire` outcome preserves the sum of checked-out
guards and available permits, and preserves the equality of the
created/active counters. -/
theorem acquire_frame (cfg : PoolConfig) (cp so : Bool) (now : Nat) (s : PoolSt)
    (r : Except ClaudeError PooledWorker) (s' : PoolSt)
    (h : ConnectionPool.acquire cfg cp so now s = (r, s')) :
    s'.checked_out + s'.available_permits = s.checked_out + s.available_permits ∧
    (s.total_created = s.active_count → s'.total_created = s'.active_count) := by
  unfold ConnectionPool.acquire at h
  by_cases h0 : s.available_permits = 0
  · rw [if_pos h0] at h
    simp at h
    obtain ⟨-, hs⟩ := h
    subst hs
    exact ⟨rfl, fun hx => hx⟩
  · rw [if_neg h0] at h
    have hp : 1 ≤ s.available_permits := Nat.one_le_iff_ne_zero.mpr h0
    cases hq : s.queue with
    | nil =>
      simp only [hq] at h
      obtain ⟨h1, -, h3⟩ := createHoldingPermit_frame cp so now _ r s' h
      simp only [] at h1 h3
      constructor <;> (intros; omega)
    | cons w0 rest =>
      simp only [hq] at h
      by_cases hh : (w0.is_healthy && !(w0.is_idle_timeout now cfg.idle_timeout)) = true
      · rw [if_pos hh] at h
        simp at h
        obtain ⟨-, hs⟩ := h
        subst hs
        refine ⟨?_, ?_⟩ <;> simp <;> omega
      · rw [if_neg hh] at h
        obtain ⟨h1, -, h3⟩ := createHoldingPermit_frame cp so now _ r s' h
        simp only [] at h1 h3
        constructor <;> (intros; omega)

/-- Helper: dropping an outstanding guard preserves the sum of checked-out
guards and available permits, and preserves the equality of the
created/active counters. -/
theorem drop_frame (cfg : PoolConfig) (w : PooledWorker) (s : PoolSt)
    (h : 0 < s.checked_out) :
    (WorkerGuard.drop cfg w s).checked_out + (WorkerGuard.drop cfg w s).available_permits =
      s.checked_out + s.available_permits ∧
    (s.total_created = s.active_count →
      (WorkerGuard.drop cfg w s).total_created = (WorkerGuard.drop cfg w s).active_count) := by
  simp [WorkerGuard.drop]
  split <;> simp <;> omega

/-- Helper: pool initialization preserves the permit accounting and the
equality of the created/active counters. -/
theorem initPoolAux_frame (cfg : PoolConfig) (cp so : Bool) (now : Nat) :
    ∀ (n : Nat) (s s' : PoolSt),
      ConnectionPool.initPoolAux cfg cp so now n s = Except.ok s' →
      s'.available_permits = s.available_permits ∧
      s'.checked_out = s.checked_out ∧
      (s.total_created = s.active_count → s'.total_created = s'.active_count) := by
  intro n
  induction n with
  | zero =>
    intro s s' h
    simp [ConnectionPool.initPoolAux] at h
    subst h
    exact ⟨rfl, rfl, fun hx => hx⟩
  | succ k ih =>
    intro s s' h
    rcases create_worker_cases cp so now s with ⟨w, hw⟩ | ⟨e, he⟩
    · simp only [ConnectionPool.initPoolAux, hw] at h
      split at h <;>
      · obtain ⟨h1, h2, h3⟩ := ih _ _ h
        simp at h1 h2 h3
        exact ⟨h1, h2, fun hx => h3 (by omega)⟩
    · simp only [ConnectionPool.initPoolAux, he] at h
      simp at h

/-- Helper: in every reachable pool state the number of outstanding guards
plus the available permits equals the configured maximum (the semaphore's
permit accounting). -/
theorem reachable_permit_sum {cfg : PoolConfig} {s : PoolSt}
    (h : Reachable cfg s) :
    s.checked_out + s.available_permits = cfg.max_size := by
  induction h with
  | init => simp [ConnectionPool.new]
  | initPoolStep _ heq ih =>
    have := initPoolAux_frame _ _ _ _ _ _ _ heq
    omega
  | acquireStep _ heq ih =>
    have := acquire_frame _ _ _ _ _ _ _ heq
    omega
  | @dropStep s1 w1 _ hpos ih =>
    have := drop_frame cfg w1 s1 hpos
    omega

/-- Helper: in every reachable pool state the total-created and
active-count counters are equal (they are only ever incremented, and
always together). -/
theorem reachable_created_eq_active {cfg : PoolConfig} {s : PoolSt}
    (h : Reachable cfg s) :
    s.total_created = s.active_count := by
  induction h with
  | init => simp [ConnectionPool.new]
  | initPoolStep _ heq ih =>
    exact (initPoolAux_frame _ _ _ _ _ _ _ heq).2.2 ih
  | acquireStep _ heq ih =>
    exact (acquire_frame _ _ _ _ _ _ _ heq).2 ih
  | @dropStep s1 w1 _ hpos ih =>
    exact (drop_frame cfg w1 s1 hpos).2 ih

/-- C6: in every reachable state of a pool with `max_size = N` at most N
worker guards are simultaneously outstanding; and when N guards are
outstanding (so no permit was released within the acquisition timeout), a
further `acquire` fails with the connection-error timeout — a different
variant from the process error of a spawn failure — leaving the pool state
unchanged. -/
theorem pool_never_exceeds_capacity :
    ∀ (cfg : PoolConfig) (s : PoolSt), Reachable cfg s →
      s.checked_out ≤ cfg.max_size ∧
      (s.checked_out = cfg.max_size →
        ∀ (cp so : Bool) (now : Nat),
          ConnectionPool.acquire cfg cp so now s =
            (Except.error (ClaudeError.Connection
              ⟨"Timeout acquiring worker from pool"⟩), s)) := by
  intro cfg s h
  have hsum := reachable_permit_sum h
  refine ⟨by omega, ?_⟩
  intro hful cp so now
  have h0 : s.available_permits = 0 := by omega
  simp [ConnectionPool.acquire, h0]

/-- C6 witness: a pool of capacity one, after one successful acquire, has
exactly one guard outstanding; a second acquire times out with the
connection error and leaves the state unchanged. -/
theorem pool_never_exceeds_capacity_witness :
    (⟨0, [], 1, 1, 1, 1⟩ : PoolSt).checked_out ≤
      (⟨1, 1, 100, 10, true⟩ : PoolConfig).max_size ∧
    ((⟨0, [], 1, 1, 1, 1⟩ : PoolSt).checked_out =
        (⟨1, 1, 100, 10, true⟩ : PoolConfig).max_size →
      ∀ (cp so : Bool) (now : Nat),
        ConnectionPool.acquire ⟨1, 1, 100, 10, true⟩ cp so now ⟨0, [], 1, 1, 1, 1⟩ =
          (Except.error (ClaudeError.Connection
            ⟨"Timeout acquiring worker from pool"⟩), ⟨0, [], 1, 1, 1, 1⟩)) :=
  pool_never_exceeds_capacity ⟨1, 1, 100, 10, true⟩ ⟨0, [], 1, 1, 1, 1⟩
    (@Reachable.acquireStep ⟨1, 1, 100, 10, true⟩
      (ConnectionPool.new ⟨1, 1, 100, 10, true⟩) ⟨0, [], 1, 1, 1, 1⟩
      true true 0 (Except.ok ⟨1, 0, true, true⟩) Reachable.init rfl)

/-- C10: in every reachable pool state the `active_count` reported by
`stats` equals `total_created` — `create_worker` increments both counters
together and no operation ever decrements `active_count`, so the
"currently active workers" statistic never falls below the total created,
even when workers are destroyed. -/
theorem stats_active_equals_total_created :
    ∀ (cfg : PoolConfig) (s : PoolSt), Reachable cfg s →
      (ConnectionPool.stats s).active_count = (ConnectionPool.stats s).total_created := by
  intro cfg s h
  have := reachable_created_eq_active h
  simp [ConnectionPool.stats, this]

/-- C10 witness: after one acquire (which created a worker) and the drop
of its guard — the worker's process is gone from the checked-out set,
deposited idle — the stats still report one active worker and one
created. -/
theorem stats_active_equals_total_created_witness :
    (ConnectionPool.stats
      (WorkerGuard.drop ⟨1, 1, 100, 10, true⟩ ⟨1, 0, true, true⟩
        ⟨0, [], 1, 1, 1, 1⟩)).active_count =
    (ConnectionPool.stats
      (WorkerGuard.drop ⟨1, 1, 100, 10, true⟩ ⟨1, 0, true, true⟩
        ⟨0, [], 1, 1, 1, 1⟩)).total_created :=
  stats_active_equals_total_created ⟨1, 1, 100, 10, true⟩ _
    (Reachable.dropStep
      (@Reachable.acquireStep ⟨1, 1, 100, 10, true⟩
        (ConnectionPool.new ⟨1, 1, 100, 10, true⟩) ⟨0, [], 1, 1, 1, 1⟩
        true true 0 (Except.ok ⟨1, 0, true, true⟩) Reachable.init rfl)
      (by decide))

/-- C7: dropping a worker guard without explicit discard returns its
worker, so a subsequent `acquire` (with a configured CLI path and a
working spawn) succeeds with a worker rather than timing out; and in the
`min_size = max_size = 1` scenario, two sequential acquire/drop cycles
after initialization hand out worker id 1 both times while the worker
stays healthy and within its idle timeout. -/
theorem guard_drop_enables_reacquire :
    (∀ (cfg : PoolConfig) (s : PoolSt) (w : PooledWorker) (now : Nat),
      1 ≤ cfg.max_size →
      isOkE (ConnectionPool.acquire cfg true true now (WorkerGuard.drop cfg w s)).fst =
        true) ∧
    (∀ (idle hci t0 t1 t2 : Nat), t1 - t0 ≤ idle → t2 - t0 ≤ idle →
      ConnectionPool.initPool ⟨1, 1, idle, hci, true⟩ true true t0
          (ConnectionPool.new ⟨1, 1, idle, hci, true⟩) =
        Except.ok ⟨1, [⟨1, t0, true, true⟩], 1, 1, 1, 0⟩ ∧
      ConnectionPool.acquire ⟨1, 1, idle, hci, true⟩ true true t1
          ⟨1, [⟨1, t0, true, true⟩], 1, 1, 1, 0⟩ =
        (Except.ok ⟨1, t0, true, true⟩, ⟨0, [], 1, 1, 1, 1⟩) ∧
      WorkerGuard.drop ⟨1, 1, idle, hci, true⟩ ⟨1, t0, true, true⟩
          ⟨0, [], 1, 1, 1, 1⟩ =
        ⟨1, [⟨1, t0, true, true⟩], 1, 1, 1, 0⟩ ∧
      ConnectionPool.acquire ⟨1, 1, idle, hci, true⟩ true true t2
          ⟨1, [⟨1, t0, true, true⟩], 1, 1, 1, 0⟩ =
        (Except.ok ⟨1, t0, true, true⟩, ⟨0, [], 1, 1, 1, 1⟩)) := by
  constructor
  · intro cfg s w now _
    have hne : (WorkerGuard.drop cfg w s).available_permits ≠ 0 := by
      simp [WorkerGuard.drop]
    unfold ConnectionPool.acquire
    rw [if_neg hne]
    cases hq : (WorkerGuard.drop cfg w s).queue with
    | nil =>
      simp [hq, ConnectionPool.createHoldingPermit, ConnectionPool.create_worker,
        ConnectionPool.spawnWorker, isOkE]
    | cons w0 rest =>
      by_cases hh : (w0.is_healthy && !(w0.is_idle_timeout now cfg.idle_timeout)) = true
      · simp [hq, hh, isOkE]
      · simp [hq, hh, ConnectionPool.createHoldingPermit, ConnectionPool.create_worker,
          ConnectionPool.spawnWorker, isOkE]
  · intro idle hci t0 t1 t2 h1 h2
    have hn1 : ¬ (t1 - t0 > idle) := by omega
    have hn2 : ¬ (t2 - t0 > idle) := by omega
    refine ⟨rfl, ?_, rfl, ?_⟩
    · simp [ConnectionPool.acquire, PooledWorker.is_healthy,
        PooledWorker.is_idle_timeout, hn1]
    · simp [ConnectionPool.acquire, PooledWorker.is_healthy,
        PooledWorker.is_idle_timeout, hn2]

/-- C7 witness: the two parts instantiated — reacquire after a drop
succeeds on a concrete one-slot pool, and the concrete
`initPool`/`acquire`/`drop`/`acquire` run with `idle = 100`, activity at
time 0 and acquires at times 1 and 2 hands out worker id 1 twice. -/
theorem guard_drop_enables_reacquire_witness :
    isOkE (ConnectionPool.acquire ⟨1, 1, 100, 10, true⟩ true true 5
        (WorkerGuard.drop ⟨1, 1, 100, 10, true⟩ ⟨1, 0, true, true⟩
          ⟨0, [], 1, 1, 1, 1⟩)).fst = true ∧
    (ConnectionPool.initPool ⟨1, 1, 100, 10, true⟩ true true 0
        (ConnectionPool.new ⟨1, 1, 100, 10, true⟩) =
      Except.ok ⟨1, [⟨1, 0, true, true⟩], 1, 1, 1, 0⟩ ∧
    ConnectionPool.acquire ⟨1, 1, 100, 10, true⟩ true true 1
        ⟨1, [⟨1, 0, true, true⟩], 1, 1, 1, 0⟩ =
      (Except.ok ⟨1, 0, true, true⟩, ⟨0, [], 1, 1, 1, 1⟩) ∧
    WorkerGuard.drop ⟨1, 1, 100, 10, true⟩ ⟨1, 0, true, true⟩ ⟨0, [], 1, 1, 1, 1⟩ =
      ⟨1, [⟨1, 0, true, true⟩], 1, 1, 1, 0⟩ ∧
    ConnectionPool.acquire ⟨1, 1, 100, 10, true⟩ true true 2
        ⟨1, [⟨1, 0, true, true⟩], 1, 1, 1, 0⟩ =
      (Except.ok ⟨1, 0, true, true⟩, ⟨0, [], 1, 1, 1, 1⟩)) :=
  ⟨guard_drop_enables_reacquire.1 ⟨1, 1, 100, 10, true⟩ ⟨0, [], 1, 1, 1, 1⟩
      ⟨1, 0, true, true⟩ 5 (by decide),
    guard_drop_enables_reacquire.2 100 10 0 1 2 (by decide) (by decide)⟩

/-- C8: `acquire` never hands out a worker that is unhealthy or idle past
the configured timeout — every worker an `acquire` returns is healthy with
idle time within the bound; and when the worker taken from the return
channel fails the check, it is removed (its process dropped) and, when
the spawn succeeds, a freshly created worker with the next id and
last activity `now` is returned instead. -/
theorem acquire_returns_only_fresh_healthy :
    (∀ (cfg : PoolConfig) (cp so : Bool) (now : Nat) (s : PoolSt)
      (w : PooledWorker) (s' : PoolSt),
      ConnectionPool.acquire cfg cp so now s = (Except.ok w, s') →
      w.is_healthy = true ∧ now - w.last_activity ≤ cfg.idle_timeout) ∧
    (∀ (cfg : PoolConfig) (so : Bool) (now : Nat) (s : PoolSt)
      (w0 : PooledWorker) (rest : List PooledWorker)
      (r : Except ClaudeError PooledWorker) (s' : PoolSt),
      s.queue = w0 :: rest →
      (w0.is_healthy && !(w0.is_idle_timeout now cfg.idle_timeout)) = false →
      s.available_permits ≠ 0 →
      ConnectionPool.acquire cfg true so now s = (r, s') →
      s'.queue = rest ∧
      (so = true → r = Except.ok ⟨s.next_worker_id + 1, now, true, true⟩)) := by
  constructor
  · intro cfg cp so now s w s' h
    unfold ConnectionPool.acquire at h
    by_cases h0 : s.available_permits = 0
    · rw [if_pos h0] at h
      simp at h
    · rw [if_neg h0] at h
      cases hq : s.queue with
      | nil =>
        simp only [hq] at h
        cases cp <;> cases so <;>
          simp [ConnectionPool.createHoldingPermit, ConnectionPool.create_worker,
            ConnectionPool.spawnWorker] at h
        obtain ⟨hw, -⟩ := h
        subst hw
        exact ⟨rfl, by simp⟩
      | cons w0 rest =>
        simp only [hq] at h
        by_cases hh : (w0.is_healthy && !(w0.is_idle_timeout now cfg.idle_timeout)) = true
        · rw [if_pos hh] at h
          simp at h
          obtain ⟨hw, -⟩ := h
          subst hw
          rw [Bool.and_eq_true] at hh
          obtain ⟨hhl, hidle⟩ := hh
          refine ⟨hhl, ?_⟩
          have : ¬ (now - w0.last_activity > cfg.idle_timeout) := by
            simpa [PooledWorker.is_idle_timeout] using hidle
          omega
        · rw [if_neg hh] at h
          cases cp <;> cases so <;>
            simp [ConnectionPool.createHoldingPermit, ConnectionPool.create_worker,
              ConnectionPool.spawnWorker] at h
          obtain ⟨hw, -⟩ := h
          subst hw
          exact ⟨rfl, by simp⟩
  · intro cfg so now s w0 rest r s' hq hh h0 h
    unfold ConnectionPool.acquire at h
    rw [if_neg h0] at h
    simp only [hq] at h
    rw [if_neg (by simp [hh])] at h
    cases so <;>
      simp [ConnectionPool.createHoldingPermit, ConnectionPool.create_worker,
        ConnectionPool.spawnWorker] at h
    · obtain ⟨-, hs⟩ := h
      subst hs
      simp
    · obtain ⟨hr, hs⟩ := h
      subst hs
      exact ⟨rfl, fun _ => hr.symm⟩

/-- C8 witness: a one-slot pool whose returned worker has gone stale (last
activity 0, acquire at time 200 with idle timeout 100): the acquired
worker is healthy and fresh, the stale worker is removed from the
channel, and the result is the freshly created worker with id 2 and last
activity 200. -/
theorem acquire_returns_only_fresh_healthy_witness :
    (PooledWorker.is_healthy ⟨2, 200, true, true⟩ = true ∧
      200 - (PooledWorker.last_activity ⟨2, 200, true, true⟩) ≤ 100) ∧
    ((⟨0, [], 2, 2, 2, 1⟩ : PoolSt).queue = [] ∧
      ((true : Bool) = true →
        (Except.ok ⟨2, 200, true, true⟩ : Except ClaudeError PooledWorker) =
          Except.ok ⟨(⟨1, [⟨1, 0, true, true⟩], 1, 1, 1, 0⟩ : PoolSt).next_worker_id + 1,
            200, true, true⟩)) :=
  ⟨acquire_returns_only_fresh_healthy.1 ⟨1, 1, 100, 10, true⟩ true true 200
      ⟨1, [⟨1, 0, true, true⟩], 1, 1, 1, 0⟩ ⟨2, 200, true, true⟩ ⟨0, [], 2, 2, 2, 1⟩ rfl,
    acquire_returns_only_fresh_healthy.2 ⟨1, 1, 100, 10, true⟩ true 200
      ⟨1, [⟨1, 0, true, true⟩], 1, 1, 1, 0⟩ ⟨1, 0, true, true⟩ []
      (Except.ok ⟨2, 200, true, true⟩) ⟨0, [], 2, 2, 2, 1⟩ rfl (by decide)
      (by decide) rfl⟩

end ClaudeSDK
